import Mathlib

/-!
Shallow embedding of `src/session-data-manager.js` (class `SessionDataManager`).

Conventions of the embedding:
* Monetary amounts are `Rat` (JS numbers; no floating-point rounding or NaN is
  modelled — see `numVal`).
* Time is an `Int` (milliseconds since epoch); `NOW()` / `Date.now()` become an
  explicit `now` parameter.
* The Postgres pool becomes an explicit `DB` value holding the two tables as
  lists of rows; every `await pool.query` becomes a pure state transformation.
* External collaborators (token storage, the Xero API, storage-write failures)
  become an explicit `Env` record; the global `xero.setTokenSet` credential
  context is abstracted into per-tenant report results, as the reports depend
  only on the tenant whose token was applied.
* A rejected promise becomes `Except.error`; `.catch(() => null)` becomes an
  `Option` result in `Env`.
-/

namespace SessionDataManager

/-- A report cell value as read from the Xero report JSON: either textual or
numeric.  (`none` at the use sites below stands for a missing cell or a missing
`value` field.) -/
inductive CellVal where
  | text (s : String)
  | num (q : Rat)
  deriving DecidableEq

/-- A leaf report row (`rowType`, `cells`); `cells[i]?.value` is modelled as
`cells.getD i none`.  A missing `cells` array behaves like `[]` under the
source's `cells && cells.length >= k` guards. -/
structure LeafRow where
  rowType : String
  cells : List (Option CellVal)
  deriving DecidableEq

/-- A top-level report row: `rowType`, optional `title`, optional nested
`rows`.  Only one nesting level is ever read by the source. -/
structure ReportRow where
  rowType : String
  title : Option String
  rows : Option (List LeafRow)
  deriving DecidableEq

/-- JS `parseFloat(v || 0)` for a cell value: missing cell or missing value
gives `parseFloat(0) = 0`; an empty string is falsy, giving `0`; a numeric
value is returned as is.  `parseFloat` of non-numeric text yields NaN in JS;
NaN is floating-point behaviour outside this embedding, so non-numeric text is
mapped to `0` here and theorems about the report reductions carry an
`amountCellOk` hypothesis restricting amount cells to numeric/empty/absent,
where this embedding is exact. -/
def numVal : Option CellVal → Rat
  | Option.none => 0
  | some (.num q) => q
  | some (.text s) => if s = "" then 0 else 0

/-- JS `v || ""` for a label cell: missing cell/value or empty string gives
`""`; text is returned.  A numeric label would make the source's
`.toLowerCase()` throw (caught upstream into a null report); theorems carry a
`labelCellOk` hypothesis excluding numeric labels. -/
def strVal : Option CellVal → String
  | some (.text s) => s
  | some (.num _) => ""
  | Option.none => ""

/-- `amountCellOk v` holds when the embedding of `parseFloat(v || 0)` agrees
exactly with JS: the cell is absent, empty text, or numeric. -/
def amountCellOk : Option CellVal → Bool
  | Option.none => true
  | some (.num _) => true
  | some (.text s) => s == ""

/-- `labelCellOk v` holds when the cell can serve as a JS string label without
throwing: absent or text. -/
def labelCellOk : Option CellVal → Bool
  | some (.num _) => false
  | _ => true

/-- JS truthiness of an optional string (`section.title` guard): present and
non-empty. -/
def optStrTruthy : Option String → Bool
  | Option.none => false
  | some s => s != ""

/-- `containsChars needle hay`: `needle` occurs as a contiguous run in `hay`. -/
def containsChars (needle : List Char) : List Char → Bool
  | [] => needle.isEmpty
  | c :: rest => needle.isPrefixOf (c :: rest) || containsChars needle rest

/-- JS `hay.includes(needle)` on strings. -/
def strIncludes (hay needle : String) : Bool :=
  containsChars needle.toList hay.toList

/-- JS `.toLowerCase()`: lower each character.  (`String.toLower` is the same
character-wise map, but its implementation does not reduce in the kernel, so
the embedding spells out the map.) -/
def strLower (s : String) : String := ⟨s.data.map Char.toLower⟩

/-- The three mutable accumulators of `loadTrialBalanceTotals`. -/
structure Acc3 where
  a : Rat
  l : Rat
  e : Rat
  deriving DecidableEq

/-- The `rowType === "Row" && row.cells && row.cells.length >= 2` guard of the
balance reduction. -/
def tbRowQual (row : LeafRow) : Bool :=
  row.rowType == "Row" && decide (2 ≤ row.cells.length)

/-- The amount a balance row contributes: `parseFloat(row.cells[1]?.value || 0)`. -/
def rowAmount (row : LeafRow) : Rat := numVal (row.cells.getD 1 Option.none)

/-- One iteration of the inner `section.rows.forEach` of
`loadTrialBalanceTotals`; `lt` is the section title already lowered. -/
def tbRowStep (lt : String) (acc : Acc3) (row : LeafRow) : Acc3 :=
  if tbRowQual row then
    if rowAmount row == 0 then acc
    else if strIncludes lt "asset" then { acc with a := acc.a + rowAmount row }
    else if strIncludes lt "liabilit" then { acc with l := acc.l + |rowAmount row| }
    else if strIncludes lt "equity" then { acc with e := acc.e + rowAmount row }
    else acc
  else acc

/-- One iteration of the outer `balanceSheetRows.forEach` of
`loadTrialBalanceTotals`. -/
def tbSectionStep (acc : Acc3) (sec : ReportRow) : Acc3 :=
  match sec.rows with
  | Option.none => acc
  | some rows =>
      if sec.rowType == "Section" && optStrTruthy sec.title then
        rows.foldl (tbRowStep (strLower (sec.title.getD ""))) acc
      else acc

/-- Result record of `loadTrialBalanceTotals`. -/
structure TrialBalanceTotals where
  totalAssets : Rat
  totalLiabilities : Rat
  totalEquity : Rat
  isBalanced : Bool
  deriving DecidableEq

/-- `loadTrialBalanceTotals`, applied to the already-fetched
`response.body.reports?.[0]?.rows || []` (the fetch itself lives in `Env`). -/
def loadTrialBalanceTotals (balanceSheetRows : List ReportRow) : TrialBalanceTotals :=
  let acc := balanceSheetRows.foldl tbSectionStep ⟨0, 0, 0⟩
  { totalAssets := acc.a
    totalLiabilities := acc.l
    totalEquity := acc.e
    isBalanced := decide (|acc.a - (acc.l + acc.e)| < 1) }

/-- The `rowType === "Row" && cells && cells.length >= 5` guard of the cash
reduction. -/
def cashRowQual (bankRow : LeafRow) : Bool :=
  bankRow.rowType == "Row" && decide (5 ≤ bankRow.cells.length)

/-- `const accountName = bankRow.cells[0]?.value || ""`. -/
def rowLabel (bankRow : LeafRow) : String := strVal (bankRow.cells.getD 0 Option.none)

/-- The amount a bank row contributes: `parseFloat(bankRow.cells[4]?.value || 0)`. -/
def cashAmount (bankRow : LeafRow) : Rat := numVal (bankRow.cells.getD 4 Option.none)

/-- The `accountName && !accountName.toLowerCase().includes("total")` guard:
the label is truthy (non-empty) and does not contain "total". -/
def cashKeep (bankRow : LeafRow) : Bool :=
  rowLabel bankRow != "" && !(strIncludes (strLower (rowLabel bankRow)) "total")

/-- One iteration of the inner `row.rows.forEach` of `loadCashPosition`. -/
def cashRowStep (acc : Rat) (bankRow : LeafRow) : Rat :=
  if cashRowQual bankRow then
    if cashKeep bankRow then acc + cashAmount bankRow else acc
  else acc

/-- One iteration of the outer `bankSummaryRows.forEach` of
`loadCashPosition`. -/
def cashSectionStep (acc : Rat) (row : ReportRow) : Rat :=
  match row.rows with
  | Option.none => acc
  | some rows => if row.rowType == "Section" then rows.foldl cashRowStep acc else acc

/-- Result record of `loadCashPosition`. -/
structure CashPosition where
  totalCash : Rat
  deriving DecidableEq

/-- `loadCashPosition`, applied to the already-fetched
`response.body.reports?.[0]?.rows || []`. -/
def loadCashPosition (bankSummaryRows : List ReportRow) : CashPosition :=
  { totalCash := bankSummaryRows.foldl cashSectionStep 0 }

/-- A row of the `session_company_data` table.  The error-path INSERT names
only six columns; the remaining columns take the schema defaults, which per
the spec (§3) are `0` for the monetary fields and `false` for `is_balanced`
(the schema itself is not part of this repository). -/
structure SessionRow where
  session_id : String
  tenant_id : String
  tenant_name : String
  total_assets : Rat
  total_liabilities : Rat
  total_equity : Rat
  total_cash : Rat
  total_revenue : Rat
  total_expenses : Rat
  net_profit : Rat
  is_balanced : Bool
  has_data : Bool
  load_error : Option String
  expires_at : Int
  deriving DecidableEq

/-- A row of the `user_display_selection` table (unique key `session_id`). -/
structure SelectionRow where
  session_id : String
  selected_tenant_ids : List String
  current_view : String
  last_updated : Int
  deriving DecidableEq

/-- The durable store: the two tables touched by this module. -/
structure DB where
  session_company_data : List SessionRow
  user_display_selection : List SelectionRow
  deriving DecidableEq

/-- What `tokenStorage.getXeroToken` returns (only `tenantName` is read). -/
structure TokenData where
  tenantName : String
  deriving DecidableEq

/-- The external collaborators of a run:
* `getXeroToken`: token storage; `none` means no token for that tenant.
* `balanceReportRows` / `cashReportRows`: the rows
  `response.body.reports?.[0]?.rows || []` of the two report fetches for a
  tenant; `none` means the fetch (or the reduction inside the same promise)
  rejected, which the source's `.catch(() => null)` turns into `null`.
* `insertCompanyRowFails`: failure injection for
  `INSERT INTO session_company_data`, keyed by the row being written; when it
  fires, the query rejects with a storage error whose `message` is
  `insertErrMsg`. -/
structure Env where
  getXeroToken : String → Option TokenData
  balanceReportRows : String → Option (List ReportRow)
  cashReportRows : String → Option (List ReportRow)
  insertCompanyRowFails : SessionRow → Bool
  insertErrMsg : String

/-- The structured return value of `loadSingleCompanyData`
(`{success, tenantId, error?}`; the success-path `data` echo is not modelled,
no claim reads it). -/
structure CompanyResult where
  success : Bool
  tenantId : String
  error : Option String
  deriving DecidableEq

/-- The error record stored by the catch block of `loadSingleCompanyData`:
`tenant_name = "Unknown Company"`, `has_data = false`, `load_error` set, other
columns at their defaults. -/
def errorRow (sessionId tenantId msg : String) (expiresAt : Int) : SessionRow :=
  { session_id := sessionId
    tenant_id := tenantId
    tenant_name := "Unknown Company"
    total_assets := 0
    total_liabilities := 0
    total_equity := 0
    total_cash := 0
    total_revenue := 0
    total_expenses := 0
    net_profit := 0
    is_balanced := false
    has_data := false
    load_error := some msg
    expires_at := expiresAt }

/-- The `companyData` record composed on the success path of
`loadSingleCompanyData` (JS `x?.f || 0` becomes `getD 0` on `Rat`). -/
def successRow (env : Env) (sessionId tenantId : String) (tok : TokenData)
    (expiresAt : Int) : SessionRow :=
  let trialBalanceData := (env.balanceReportRows tenantId).map loadTrialBalanceTotals
  let cashData := (env.cashReportRows tenantId).map loadCashPosition
  { session_id := sessionId
    tenant_id := tenantId
    tenant_name := tok.tenantName
    total_assets := (trialBalanceData.map (·.totalAssets)).getD 0
    total_liabilities := |(trialBalanceData.map (·.totalLiabilities)).getD 0|
    total_equity := (trialBalanceData.map (·.totalEquity)).getD 0
    total_cash := (cashData.map (·.totalCash)).getD 0
    total_revenue := 0
    total_expenses := 0
    net_profit := 0
    is_balanced := (trialBalanceData.map (·.isBalanced)).getD false
    has_data := trialBalanceData.isSome || cashData.isSome
    load_error := Option.none
    expires_at := expiresAt }

/-- The catch block of `loadSingleCompanyData`: attempt the error-row INSERT;
if that second write also rejects, the rejection propagates out of the loader
(`Except.error`); otherwise one error row is written and a structured failure
is returned. -/
def attemptErrorInsert (env : Env) (sessionId tenantId msg : String)
    (expiresAt : Int) : Except String (List SessionRow × CompanyResult) :=
  if env.insertCompanyRowFails (errorRow sessionId tenantId msg expiresAt) then
    Except.error env.insertErrMsg
  else
    Except.ok ([errorRow sessionId tenantId msg expiresAt],
      { success := false, tenantId := tenantId, error := some msg })

/-- `loadSingleCompanyData(sessionId, tenantId, expiresAt)`.  The result pairs
the list of rows this call inserted into `session_company_data` with the
structured return value; `Except.error` is a rejected promise. -/
def loadSingleCompanyData (env : Env) (sessionId tenantId : String)
    (expiresAt : Int) : Except String (List SessionRow × CompanyResult) :=
  match env.getXeroToken tenantId with
  | Option.none =>
      attemptErrorInsert env sessionId tenantId
        (s!"No token found for tenant {tenantId}") expiresAt
  | some tok =>
      if env.insertCompanyRowFails (successRow env sessionId tenantId tok expiresAt) then
        attemptErrorInsert env sessionId tenantId env.insertErrMsg expiresAt
      else
        Except.ok ([successRow env sessionId tenantId tok expiresAt],
          { success := true, tenantId := tenantId, error := Option.none })

/-- `setDisplaySelection`: the `ON CONFLICT (session_id) DO UPDATE` upsert.
`NOW()` is the explicit `now` argument. -/
def setDisplaySelection (db : DB) (sessionId : String)
    (selectedTenantIds : List String) (currentView : String) (now : Int) : DB :=
  if db.user_display_selection.any (fun r => r.session_id == sessionId) then
    { db with user_display_selection :=
        db.user_display_selection.map (fun r =>
          if r.session_id == sessionId then
            { r with selected_tenant_ids := selectedTenantIds
                     current_view := currentView
                     last_updated := now }
          else r) }
  else
    { db with user_display_selection :=
        db.user_display_selection ++
          [{ session_id := sessionId
             selected_tenant_ids := selectedTenantIds
             current_view := currentView
             last_updated := now }] }

/-- The two columns `getDisplaySelection` selects. -/
structure SelectionView where
  selected_tenant_ids : List String
  current_view : String
  deriving DecidableEq

/-- `getDisplaySelection`: first row for the session, or the default
`{selected_tenant_ids: [], current_view: "overview"}`. -/
def getDisplaySelection (db : DB) (sessionId : String) : SelectionView :=
  match db.user_display_selection.find? (fun r => r.session_id == sessionId) with
  | some r => { selected_tenant_ids := r.selected_tenant_ids, current_view := r.current_view }
  | Option.none => { selected_tenant_ids := [], current_view := "overview" }

/-- The `Promise.all` over `connectedTenantIds.map(loadSingleCompanyData…)`:
rejects when any loader rejects.  (In JS the sibling promises still run after
the first rejection; their inserts are not modelled because every claim below
conditions on the orchestrator completing, i.e. on `Except.ok`.) -/
def loadAll (env : Env) (sessionId : String) (expiresAt : Int) :
    List String → Except String (List (List SessionRow × CompanyResult))
  | [] => Except.ok []
  | t :: ts => do
      let r ← loadSingleCompanyData env sessionId t expiresAt
      let rs ← loadAll env sessionId expiresAt ts
      Except.ok (r :: rs)

/-- `sessionTTL = 30 * 60 * 1000` milliseconds. -/
def sessionTTL : Int := 30 * 60 * 1000

/-- Return value of `loadSessionData`. -/
structure SessionLoadResult where
  sessionId : String
  totalCompanies : Nat
  successfulCompanies : Nat
  expiresAt : Int
  deriving DecidableEq

/-- `loadSessionData(sessionId, connectedTenantIds)`: compute `expiresAt`,
delete the session's rows, fan out the loaders, record the initial display
selection, and return the counts. -/
def loadSessionData (env : Env) (db : DB) (sessionId : String)
    (connectedTenantIds : List String) (now : Int) :
    Except String (DB × SessionLoadResult) := do
  let expiresAt := now + sessionTTL
  let db1 : DB := { db with session_company_data :=
      db.session_company_data.filter (fun r => !(r.session_id == sessionId)) }
  let results ← loadAll env sessionId expiresAt connectedTenantIds
  let db2 : DB := { db1 with session_company_data :=
      db1.session_company_data ++ (results.map Prod.fst).flatten }
  let db3 := setDisplaySelection db2 sessionId connectedTenantIds "overview" now
  let successCount := (results.filter (fun r => r.2.success)).length
  Except.ok (db3,
    { sessionId := sessionId
      totalCompanies := connectedTenantIds.length
      successfulCompanies := successCount
      expiresAt := expiresAt })

/-- The selection actually used by `getConsolidatedData`: the explicit
argument when supplied, otherwise the stored display selection. -/
def resolvedSel (db : DB) (sessionId : String)
    (selectedTenantIds : Option (List String)) : List String :=
  match selectedTenantIds with
  | some l => l
  | Option.none => (getDisplaySelection db sessionId).selected_tenant_ids

/-- The SELECT of `getConsolidatedData`:
`session_id = $1 AND tenant_id = ANY($2) AND expires_at > NOW()`. -/
def liveRows (db : DB) (sessionId : String) (selected : List String)
    (now : Int) : List SessionRow :=
  db.session_company_data.filter (fun r =>
    r.session_id == sessionId &&
      (selected.contains r.tenant_id && decide (r.expires_at > now)))

/-- `totals` of the consolidated view. -/
structure ConsolidatedTotals where
  totalAssets : Rat
  totalLiabilities : Rat
  totalEquity : Rat
  totalCash : Rat
  totalRevenue : Rat
  totalExpenses : Rat
  totalNetProfit : Rat
  deriving DecidableEq

/-- One element of `companies` of the consolidated view. -/
structure CompanyView where
  tenantId : String
  tenantName : String
  totalAssets : Rat
  totalLiabilities : Rat
  totalEquity : Rat
  totalCash : Rat
  isBalanced : Bool
  hasData : Bool
  error : Option String
  deriving DecidableEq

/-- `summary` of the consolidated view. -/
structure ConsolidatedSummary where
  totalCompanies : Nat
  balancedCompanies : Nat
  companiesWithData : Nat
  companiesWithErrors : Nat
  deriving DecidableEq

/-- The consolidated view. -/
structure ConsolidatedView where
  totals : ConsolidatedTotals
  companies : List CompanyView
  summary : ConsolidatedSummary
  deriving DecidableEq

/-- `getConsolidatedData` returns either `{error: msg}` or the view. -/
inductive ConsolidatedResult where
  | error (msg : String)
  | ok (view : ConsolidatedView)
  deriving DecidableEq

/-- The per-company projection inside `companies.map` of
`getConsolidatedData` (JS `parseFloat(x || 0)` is the identity on the stored
`Rat` fields). -/
def projectCompany (c : SessionRow) : CompanyView :=
  { tenantId := c.tenant_id
    tenantName := c.tenant_name
    totalAssets := c.total_assets
    totalLiabilities := c.total_liabilities
    totalEquity := c.total_equity
    totalCash := c.total_cash
    isBalanced := c.is_balanced
    hasData := c.has_data
    error := c.load_error }

/-- The "fast consolidation math" block of `getConsolidatedData` applied to
the queried rows.  `companies.filter((c) => c.load_error)` uses JS truthiness:
a row counts as having an error when `load_error` is non-null and non-empty
(`optStrTruthy`). -/
def consolidateRows (companies : List SessionRow) : ConsolidatedView :=
  { totals :=
      { totalAssets := companies.foldl (fun sum c => sum + c.total_assets) 0
        totalLiabilities := companies.foldl (fun sum c => sum + c.total_liabilities) 0
        totalEquity := companies.foldl (fun sum c => sum + c.total_equity) 0
        totalCash := companies.foldl (fun sum c => sum + c.total_cash) 0
        totalRevenue := companies.foldl (fun sum c => sum + c.total_revenue) 0
        totalExpenses := companies.foldl (fun sum c => sum + c.total_expenses) 0
        totalNetProfit := companies.foldl (fun sum c => sum + c.net_profit) 0 }
    companies := companies.map projectCompany
    summary :=
      { totalCompanies := companies.length
        balancedCompanies := (companies.filter (fun c => c.is_balanced)).length
        companiesWithData := (companies.filter (fun c => c.has_data)).length
        companiesWithErrors := (companies.filter (fun c => optStrTruthy c.load_error)).length } }

/-- `getConsolidatedData(sessionId, selectedTenantIds = null)`. -/
def getConsolidatedData (db : DB) (sessionId : String)
    (selectedTenantIds : Option (List String)) (now : Int) : ConsolidatedResult :=
  let selList := resolvedSel db sessionId selectedTenantIds
  if selList.isEmpty then ConsolidatedResult.error "No companies selected"
  else
    let companies := liveRows db sessionId selList now
    if companies.isEmpty then
      ConsolidatedResult.error "No session data found or session expired"
    else ConsolidatedResult.ok (consolidateRows companies)

/-- Whether `loadSingleCompanyData` takes its success path: a token exists and
the success-row INSERT does not fail. -/
def loaderSucceeds (env : Env) (sessionId tenantId : String) (expiresAt : Int) : Bool :=
  match env.getXeroToken tenantId with
  | Option.none => false
  | some tok => !(env.insertCompanyRowFails (successRow env sessionId tenantId tok expiresAt))

/-- Whether `loadSingleCompanyData` reaches its catch block: the token is
missing, or the success-row INSERT fails. -/
def reachedCatch (env : Env) (sessionId tenantId : String) (expiresAt : Int) : Bool :=
  match env.getXeroToken tenantId with
  | Option.none => true
  | some tok => env.insertCompanyRowFails (successRow env sessionId tenantId tok expiresAt)

/-- The `error.message` seen by the catch block of `loadSingleCompanyData`. -/
def catchMessage (env : Env) (tenantId : String) : String :=
  match env.getXeroToken tenantId with
  | Option.none => s!"No token found for tenant {tenantId}"
  | some _ => env.insertErrMsg

/-- The empty store. -/
def dbEmpty : DB := { session_company_data := [], user_display_selection := [] }

section Lemmas

variable {α β : Type}

/-- Filtering by a conjunction is filtering twice. -/
theorem filter_and_eq (l : List α) (p q : α → Bool) :
    l.filter (fun a => p a && q a) = (l.filter p).filter q := by
  induction l with
  | nil => rfl
  | cons a t ih =>
      cases hp : p a <;> cases hq : q a <;>
        simp [List.filter_cons, hp, hq, ih]

/-- Filtering by `p` after keeping only the elements failing `p` leaves
nothing. -/
theorem filter_not_filter_eq (l : List α) (p : α → Bool) :
    (l.filter (fun a => !(p a))).filter p = [] := by
  induction l with
  | nil => rfl
  | cons a t ih => cases hp : p a <;> simp [List.filter_cons, hp, ih]

/-- Two filters have the same length when the predicate images agree. -/
theorem length_filter_eq_of_map_eq (p : α → Bool) (q : β → Bool)
    (l : List α) (m : List β) (h : l.map p = m.map q) :
    (l.filter p).length = (m.filter q).length := by
  induction l generalizing m with
  | nil => cases m with
    | nil => rfl
    | cons b tm => simp at h
  | cons a t ih =>
      cases m with
      | nil => simp at h
      | cons b tm =>
          simp only [List.map_cons, List.cons.injEq] at h
          obtain ⟨h1, h2⟩ := h
          cases hp : p a <;> rw [hp] at h1 <;>
            simp [List.filter_cons, hp, ← h1, ih tm h2]

/-- A left fold adding a projection equals the initial value plus the sum of
the projected list. -/
theorem foldl_add_map (f : α → Rat) (l : List α) (i : Rat) :
    l.foldl (fun sum c => sum + f c) i = i + (l.map f).sum := by
  induction l generalizing i with
  | nil => simp
  | cons c t ih => simp [List.foldl_cons, ih (i + f c)]; ring

end Lemmas

/-- Shape of every non-rejecting `loadSingleCompanyData` call: exactly one row
is inserted, for this session and tenant, and `success` reflects
`loaderSucceeds`. -/
theorem loadSingle_ok (env : Env) (s t : String) (e : Int)
    {rows : List SessionRow} {res : CompanyResult}
    (h : loadSingleCompanyData env s t e = Except.ok (rows, res)) :
    (∃ row, rows = [row] ∧ row.session_id = s ∧ row.tenant_id = t)
    ∧ res.success = loaderSucceeds env s t e
    ∧ res.tenantId = t := by
  cases htok : env.getXeroToken t with
  | none =>
      simp only [loadSingleCompanyData, htok, attemptErrorInsert] at h
      split at h
      · cases h
      · injection h with h1
        injection h1 with hrows hres
        subst hrows; subst hres
        simp only [loaderSucceeds, htok]
        exact ⟨⟨_, rfl, rfl, rfl⟩, trivial, trivial⟩
  | some tok =>
      simp only [loadSingleCompanyData, htok, attemptErrorInsert] at h
      split at h
      · rename_i hfail
        split at h
        · cases h
        · injection h with h1
          injection h1 with hrows hres
          subst hrows; subst hres
          simp only [loaderSucceeds, htok]
          rw [hfail]
          exact ⟨⟨_, rfl, rfl, rfl⟩, rfl, trivial⟩
      · rename_i hfail
        rw [Bool.not_eq_true] at hfail
        injection h with h1
        injection h1 with hrows hres
        subst hrows; subst hres
        simp only [loaderSucceeds, htok]
        rw [hfail]
        exact ⟨⟨_, rfl, rfl, rfl⟩, rfl, trivial⟩

/-- `setDisplaySelection` leaves `session_company_data` untouched. -/
theorem scd_setDisplaySelection (db : DB) (s : String) (ids : List String)
    (v : String) (now : Int) :
    (setDisplaySelection db s ids v now).session_company_data = db.session_company_data := by
  unfold setDisplaySelection
  split <;> rfl

/-- Definitional reduction of `Except` bind on a success. -/
theorem bind_ok_eq {e a b : Type} (x : a) (f : a → Except e b) :
    (Bind.bind (Except.ok x : Except e a) f) = f x := rfl

/-- Definitional reduction of `Except` bind on a failure. -/
theorem bind_error_eq {e a b : Type} (m : e) (f : a → Except e b) :
    (Bind.bind (Except.error m : Except e a) f) = Except.error m := rfl

/-- Shape of every completing fan-out: the inserted rows are in one-to-one
order-preserving correspondence with the requested tenant identifiers, all for
this session, and the per-company success flags are `loaderSucceeds`. -/
theorem loadAll_ok (env : Env) (s : String) (e : Int) :
    ∀ (ids : List String) (results : List (List SessionRow × CompanyResult)),
      loadAll env s e ids = Except.ok results →
      ((results.map Prod.fst).flatten.map (fun r => r.tenant_id) = ids)
      ∧ (∀ r ∈ (results.map Prod.fst).flatten, r.session_id = s)
      ∧ (results.map (fun p => p.2.success) = ids.map (fun t => loaderSucceeds env s t e)) := by
  intro ids
  induction ids with
  | nil =>
      intro results h
      simp only [loadAll] at h
      injection h with h1
      subst h1
      simp
  | cons t ts ih =>
      intro results h
      simp only [loadAll] at h
      cases h1 : loadSingleCompanyData env s t e with
      | error m => rw [h1, bind_error_eq] at h; cases h
      | ok pr =>
          rw [h1, bind_ok_eq] at h
          cases h2 : loadAll env s e ts with
          | error m => rw [h2, bind_error_eq] at h; cases h
          | ok rs =>
              rw [h2, bind_ok_eq] at h
              injection h with h3
              subst h3
              obtain ⟨prRows, prRes⟩ := pr
              obtain ⟨⟨row, hrow, hsess, htid⟩, hsucc, -⟩ := loadSingle_ok env s t e h1
              obtain ⟨ih1, ih2, ih3⟩ := ih rs h2
              subst hrow
              refine ⟨?_, ?_, ?_⟩
              · simp [List.map_cons, List.flatten_cons, htid, ih1]
              · intro r hr
                simp only [List.map_cons, List.flatten_cons, List.mem_append,
                  List.mem_singleton] at hr
                rcases hr with hr | hr
                · rw [hr]; exact hsess
                · exact ih2 r hr
              · simp [List.map_cons, hsucc, ih3]

/-- Unfolding of every completing `loadSessionData` call. -/
theorem loadSessionData_ok (env : Env) (db : DB) (s : String) (ids : List String)
    (now : Int) {db2 : DB} {res : SessionLoadResult}
    (h : loadSessionData env db s ids now = Except.ok (db2, res)) :
    ∃ results, loadAll env s (now + sessionTTL) ids = Except.ok results
      ∧ db2 = setDisplaySelection
          { session_company_data :=
              db.session_company_data.filter (fun r => !(r.session_id == s))
                ++ (results.map Prod.fst).flatten
            user_display_selection := db.user_display_selection }
          s ids "overview" now
      ∧ res = { sessionId := s
                totalCompanies := ids.length
                successfulCompanies := (results.filter (fun r => r.2.success)).length
                expiresAt := now + sessionTTL } := by
  simp only [loadSessionData] at h
  cases hres : loadAll env s (now + sessionTTL) ids with
  | error m => rw [hres, bind_error_eq] at h; cases h
  | ok results =>
      rw [hres, bind_ok_eq] at h
      injection h with h1
      injection h1 with hdb hres2
      exact ⟨results, rfl, hdb.symm, hres2.symm⟩

/-- The tenant rows inserted by a completing fan-out. -/
theorem sessionRows_after_load (env : Env) (db : DB) (s : String) (ids : List String)
    (now : Int) {db2 : DB} {res : SessionLoadResult}
    (h : loadSessionData env db s ids now = Except.ok (db2, res)) :
    ∃ results, loadAll env s (now + sessionTTL) ids = Except.ok results
      ∧ db2.session_company_data.filter (fun r => r.session_id == s)
          = (results.map Prod.fst).flatten := by
  obtain ⟨results, hres, hdb, -⟩ := loadSessionData_ok env db s ids now h
  obtain ⟨htid, hsess, -⟩ := loadAll_ok env s (now + sessionTTL) ids results hres
  refine ⟨results, hres, ?_⟩
  have hscd : db2.session_company_data =
      db.session_company_data.filter (fun r => !(r.session_id == s))
        ++ (results.map Prod.fst).flatten := by
    rw [hdb, scd_setDisplaySelection]
  rw [hscd, List.filter_append, filter_not_filter_eq, List.nil_append]
  apply List.filter_eq_self.mpr
  intro r hr
  simp [hsess r hr]

/-- Claim C1: after a completing `loadSessionData`, the `session_company_data`
rows for that session are exactly one per entry of the requested identifier
list — a success or an error row — so their count equals the input count, and
for each identifier the number of its rows equals its multiplicity in the
input, regardless of how many individual loads failed. -/
theorem c1_one_row_per_company (env : Env) (db : DB) (s : String)
    (ids : List String) (now : Int) {db2 : DB} {res : SessionLoadResult}
    (h : loadSessionData env db s ids now = Except.ok (db2, res)) :
    ((db2.session_company_data.filter (fun r => r.session_id == s)).length = ids.length)
    ∧ ∀ t : String,
        ((db2.session_company_data.filter
            (fun r => r.session_id == s && r.tenant_id == t)).length = ids.count t) := by
  obtain ⟨results, hres, hfil⟩ := sessionRows_after_load env db s ids now h
  obtain ⟨htid, hsess, -⟩ := loadAll_ok env s (now + sessionTTL) ids results hres
  constructor
  · rw [hfil, ← htid, List.length_map]
  · intro t
    have hsplit : db2.session_company_data.filter
        (fun r => r.session_id == s && r.tenant_id == t)
          = ((results.map Prod.fst).flatten).filter (fun r => r.tenant_id == t) := by
      rw [filter_and_eq, hfil]
    rw [hsplit]
    have hcount : ids.count t = (ids.filter (fun x => x == t)).length := by
      rw [← List.countP_eq_length_filter]
      rfl
    rw [hcount]
    apply length_filter_eq_of_map_eq
    rw [← htid, List.map_map]
    rfl

/-- Claim C4: a completing `loadSessionData` reports `totalCompanies` equal to
the input list length and `successfulCompanies` equal to the number of
identifiers whose Company Loader took its success path; no failure
short-circuits the fan-out. -/
theorem c4_fanout_counts (env : Env) (db : DB) (s : String)
    (ids : List String) (now : Int) {db2 : DB} {res : SessionLoadResult}
    (h : loadSessionData env db s ids now = Except.ok (db2, res)) :
    res.totalCompanies = ids.length
    ∧ res.successfulCompanies
        = (ids.filter (fun t => loaderSucceeds env s t (now + sessionTTL))).length := by
  obtain ⟨results, hres, -, hresval⟩ := loadSessionData_ok env db s ids now h
  obtain ⟨-, -, hsucc⟩ := loadAll_ok env s (now + sessionTTL) ids results hres
  subst hresval
  exact ⟨rfl, length_filter_eq_of_map_eq _ _ results ids hsucc⟩

/-- A three-company environment whose tenant "b" has no stored token. -/
def envW3 : Env :=
  { getXeroToken := fun t => if t == "b" then Option.none else some ⟨"N" ++ t⟩
    balanceReportRows := fun _ => some []
    cashReportRows := fun _ => Option.none
    insertCompanyRowFails := fun _ => false
    insertErrMsg := "db write failed" }

/-- The store produced by loading `["a", "b"]` into an empty store at time 0. -/
def dbC1out : DB :=
  { session_company_data :=
      [successRow envW3 "s" "a" ⟨"Na"⟩ 1800000,
       errorRow "s" "b" "No token found for tenant b" 1800000]
    user_display_selection := [⟨"s", ["a", "b"], "overview", 0⟩] }

/-- Witness for C1 at a concrete input: two requested companies, one failing
for a missing credential, still yield exactly one row each. -/
theorem c1_witness :
    ((dbC1out.session_company_data.filter (fun r => r.session_id == "s")).length
        = (["a", "b"] : List String).length)
    ∧ ∀ t : String,
        ((dbC1out.session_company_data.filter
            (fun r => r.session_id == "s" && r.tenant_id == t)).length
          = (["a", "b"] : List String).count t) :=
  c1_one_row_per_company envW3 dbEmpty "s" ["a", "b"] 0
    (show loadSessionData envW3 dbEmpty "s" ["a", "b"] 0
        = Except.ok (dbC1out,
            { sessionId := "s", totalCompanies := 2, successfulCompanies := 1,
              expiresAt := 1800000 }) from rfl)

/-- The store produced by loading `["a", "b", "c"]` into an empty store. -/
def dbC4out : DB :=
  { session_company_data :=
      [successRow envW3 "s" "a" ⟨"Na"⟩ 1800000,
       errorRow "s" "b" "No token found for tenant b" 1800000,
       successRow envW3 "s" "c" ⟨"Nc"⟩ 1800000]
    user_display_selection := [⟨"s", ["a", "b", "c"], "overview", 0⟩] }

/-- The result record of that load. -/
def resC4 : SessionLoadResult :=
  { sessionId := "s", totalCompanies := 3, successfulCompanies := 2, expiresAt := 1800000 }

/-- Witness for C4 at a concrete input: loading 3 companies where one
credential is missing yields `successfulCompanies = 2`. -/
theorem c4_witness :
    loadSessionData envW3 dbEmpty "s" ["a", "b", "c"] 0 = Except.ok (dbC4out, resC4)
    ∧ resC4.totalCompanies = 3 ∧ resC4.successfulCompanies = 2 := by
  have h : loadSessionData envW3 dbEmpty "s" ["a", "b", "c"] 0
      = Except.ok (dbC4out, resC4) := by rfl
  have hc := c4_fanout_counts envW3 dbEmpty "s" ["a", "b", "c"] 0 h
  exact ⟨h, hc.1.trans rfl, hc.2.trans (by rfl)⟩

/-- The row update applied by the upsert's conflict branch. -/
def updSelection (s : String) (ids : List String) (v : String) (now : Int)
    (r : SelectionRow) : SelectionRow :=
  if r.session_id == s then
    { r with selected_tenant_ids := ids, current_view := v, last_updated := now }
  else r

/-- `setDisplaySelection` written through `updSelection`. -/
theorem setDisplaySelection_eq (db : DB) (s : String) (ids : List String)
    (v : String) (now : Int) :
    setDisplaySelection db s ids v now =
      if db.user_display_selection.any (fun r => r.session_id == s) then
        { db with user_display_selection :=
            db.user_display_selection.map (updSelection s ids v now) }
      else
        { db with user_display_selection :=
            db.user_display_selection ++
              [{ session_id := s, selected_tenant_ids := ids,
                 current_view := v, last_updated := now }] } := by
  unfold setDisplaySelection updSelection
  rfl

/-- The updated row matches the session key iff the original did. -/
theorem updSelection_key (s : String) (ids : List String) (v : String) (now : Int)
    (r : SelectionRow) :
    ((updSelection s ids v now r).session_id == s) = (r.session_id == s) := by
  unfold updSelection
  cases hr : r.session_id == s with
  | true => simp [hr]
  | false => simp [hr]

/-- Updating a row twice with the same values is the same as once. -/
theorem updSelection_idem (s : String) (ids : List String) (v : String) (now : Int)
    (r : SelectionRow) :
    updSelection s ids v now (updSelection s ids v now r) = updSelection s ids v now r := by
  unfold updSelection
  cases hr : r.session_id == s with
  | true => simp [hr]
  | false => simp [hr]

/-- Finding the session's row after the conflict-branch update yields the
updated values. -/
theorem selection_upd_find (l : List SelectionRow) (s : String) (ids : List String)
    (v : String) (now : Int) (h : l.any (fun r => r.session_id == s) = true) :
    ∃ r0, (l.map (updSelection s ids v now)).find? (fun r => r.session_id == s) = some r0
      ∧ r0.selected_tenant_ids = ids ∧ r0.current_view = v := by
  induction l with
  | nil => cases h
  | cons r t ih =>
      cases hr : r.session_id == s with
      | true =>
          refine ⟨updSelection s ids v now r, ?_, ?_, ?_⟩
          · rw [List.map_cons]
            apply List.find?_cons_of_pos
            rw [updSelection_key]
            exact hr
          · simp [updSelection, hr]
          · simp [updSelection, hr]
      | false =>
          have h2 : t.any (fun r => r.session_id == s) = true := by
            rw [List.any_cons, hr] at h
            simpa using h
          obtain ⟨r0, hfind, h3, h4⟩ := ih h2
          refine ⟨r0, ?_, h3, h4⟩
          rw [List.map_cons]
          have hupd : updSelection s ids v now r = r := by
            simp [updSelection, hr]
          rw [hupd, List.find?_cons_of_neg _ (by rw [hr]; exact Bool.false_ne_true)]
          exact hfind

/-- Reading the display selection right after writing it returns exactly what
was written, whatever the prior state. -/
theorem getSet_selection (db : DB) (s : String) (ids : List String) (v : String)
    (now : Int) :
    getDisplaySelection (setDisplaySelection db s ids v now) s
      = { selected_tenant_ids := ids, current_view := v } := by
  rw [setDisplaySelection_eq]
  cases hany : db.user_display_selection.any (fun r => r.session_id == s) with
  | true =>
      rw [if_pos rfl]
      unfold getDisplaySelection
      obtain ⟨r0, hfind, h1, h2⟩ := selection_upd_find
        db.user_display_selection s ids v now hany
      simp only [hfind, h1, h2]
  | false =>
      rw [if_neg Bool.false_ne_true]
      unfold getDisplaySelection
      have hnone : db.user_display_selection.find? (fun r => r.session_id == s)
          = Option.none := by
        rw [List.find?_eq_none]
        intro x hx hpx
        rw [Bool.eq_false_iff] at hany
        exact hany (List.any_eq_true.mpr ⟨x, hx, hpx⟩)
      simp only [List.find?_append, hnone, Option.none_or]
      simp [List.find?]

/-- Writing the same selection twice leaves the store exactly as one write. -/
theorem set_set_idem (db : DB) (s : String) (ids : List String) (v : String)
    (t : Int) :
    setDisplaySelection (setDisplaySelection db s ids v t) s ids v t
      = setDisplaySelection db s ids v t := by
  cases hany : db.user_display_selection.any (fun r => r.session_id == s) with
  | true =>
      have h1 : setDisplaySelection db s ids v t =
          { db with user_display_selection :=
              db.user_display_selection.map (updSelection s ids v t) } := by
        rw [setDisplaySelection_eq, if_pos hany]
      rw [h1]
      have hany2 : (db.user_display_selection.map (updSelection s ids v t)).any
          (fun r => r.session_id == s) = true := by
        rw [List.any_map]
        have hcomp : ((fun r : SelectionRow => r.session_id == s) ∘ updSelection s ids v t)
            = fun r => r.session_id == s := by
          funext r
          exact updSelection_key s ids v t r
        rw [hcomp, hany]
      rw [setDisplaySelection_eq, if_pos hany2]
      congr 1
      rw [List.map_map]
      apply List.map_congr_left
      intro r _
      exact updSelection_idem s ids v t r
  | false =>
      have h1 : setDisplaySelection db s ids v t =
          { db with user_display_selection :=
              db.user_display_selection ++
                [{ session_id := s, selected_tenant_ids := ids,
                   current_view := v, last_updated := t }] } := by
        rw [setDisplaySelection_eq, if_neg (by rw [hany]; exact Bool.false_ne_true)]
      rw [h1]
      have hany2 : ((db.user_display_selection ++
          [{ session_id := s, selected_tenant_ids := ids, current_view := v,
             last_updated := t }] : List SelectionRow)).any
            (fun r => r.session_id == s) = true := by
        rw [List.any_append]
        apply Bool.or_eq_true_iff.mpr
        right
        simp
      rw [setDisplaySelection_eq, if_pos hany2]
      congr 1
      rw [List.map_append]
      have hall : ∀ r ∈ db.user_display_selection, (r.session_id == s) = false := by
        intro r hr
        cases hrr : r.session_id == s with
        | false => rfl
        | true =>
            exact absurd (List.any_eq_true.mpr ⟨r, hr, hrr⟩)
              (by rw [hany]; exact Bool.false_ne_true)
      have hleft : db.user_display_selection.map (updSelection s ids v t)
          = db.user_display_selection := by
        calc db.user_display_selection.map (updSelection s ids v t)
            = db.user_display_selection.map id := by
              apply List.map_congr_left
              intro r hr
              unfold updSelection
              rw [hall r hr]
              rfl
          _ = db.user_display_selection := List.map_id _
      rw [hleft]
      simp [updSelection]

/-- Claim C9: `setSelection` then `getSelection` round-trips exactly; a second
`setSelection` with different values fully overwrites the prior stored
selection (the read after it is independent of everything before); and calling
`setSelection` twice with identical arguments leaves the whole store in the
same state (idempotence). -/
theorem c9_selection_store (db : DB) (s : String) (ids ids2 : List String)
    (v v2 : String) (t t2 : Int) :
    getDisplaySelection (setDisplaySelection db s ids v t) s
        = { selected_tenant_ids := ids, current_view := v }
    ∧ getDisplaySelection
          (setDisplaySelection (setDisplaySelection db s ids v t) s ids2 v2 t2) s
        = { selected_tenant_ids := ids2, current_view := v2 }
    ∧ setDisplaySelection (setDisplaySelection db s ids v t) s ids v t
        = setDisplaySelection db s ids v t :=
  ⟨getSet_selection db s ids v t, getSet_selection _ s ids2 v2 t2,
    set_set_idem db s ids v t⟩

/-- Zeta-reduced form of `getConsolidatedData`. -/
theorem getConsolidatedData_eq (db : DB) (s : String) (sel : Option (List String))
    (now : Int) :
    getConsolidatedData db s sel now =
      if (resolvedSel db s sel).isEmpty then
        ConsolidatedResult.error "No companies selected"
      else if (liveRows db s (resolvedSel db s sel) now).isEmpty then
        ConsolidatedResult.error "No session data found or session expired"
      else ConsolidatedResult.ok (consolidateRows (liveRows db s (resolvedSel db s sel) now)) :=
  rfl

/-- `resolvedSel` depends on the store only through the stored selection. -/
theorem resolvedSel_congr (db1 db2 : DB) (s : String) (sel : Option (List String))
    (hsel : getDisplaySelection db1 s = getDisplaySelection db2 s) :
    resolvedSel db1 s sel = resolvedSel db2 s sel := by
  cases sel with
  | none => unfold resolvedSel; rw [hsel]
  | some l => rfl

/-- `liveRows` factors through the session filter. -/
theorem liveRows_eq (db : DB) (s : String) (sel : List String) (now : Int) :
    liveRows db s sel now =
      (db.session_company_data.filter (fun r => r.session_id == s)).filter
        (fun r => sel.contains r.tenant_id && decide (r.expires_at > now)) := by
  unfold liveRows
  exact filter_and_eq _ _ _

/-- `getConsolidatedData` reads the store only through the session's display
selection and the session's `session_company_data` rows. -/
theorem getConsolidatedData_congr (db1 db2 : DB) (s : String)
    (sel : Option (List String)) (now : Int)
    (hsel : getDisplaySelection db1 s = getDisplaySelection db2 s)
    (hrows : db1.session_company_data.filter (fun r => r.session_id == s)
        = db2.session_company_data.filter (fun r => r.session_id == s)) :
    getConsolidatedData db1 s sel now = getConsolidatedData db2 s sel now := by
  have hs : resolvedSel db1 s sel = resolvedSel db2 s sel :=
    resolvedSel_congr db1 db2 s sel hsel
  have hl : liveRows db1 s (resolvedSel db1 s sel) now
      = liveRows db2 s (resolvedSel db2 s sel) now := by
    rw [liveRows_eq, liveRows_eq, hrows, hs]
  rw [getConsolidatedData_eq, getConsolidatedData_eq, hl, hs]

/-- Claim C2: a reload discards the prior generation entirely.  Two completing
`loadSessionData` calls with the same arguments over arbitrary prior stores
leave exactly the same rows for that session, and every later `consolidate`
(with any selection and any read time) observes exactly the same result — so
no row written before the reload is reachable by `consolidate` afterward, even
under an identical selection.  (The leading delete is sequenced before every
insert by construction of `loadSessionData`.) -/
theorem c2_reload_discards_prior (env : Env) (dbA dbB : DB) (s : String)
    (ids : List String) (now : Int) {dbA2 dbB2 : DB} {resA resB : SessionLoadResult}
    (hA : loadSessionData env dbA s ids now = Except.ok (dbA2, resA))
    (hB : loadSessionData env dbB s ids now = Except.ok (dbB2, resB)) :
    (dbA2.session_company_data.filter (fun r => r.session_id == s)
        = dbB2.session_company_data.filter (fun r => r.session_id == s))
    ∧ ∀ (sel : Option (List String)) (now2 : Int),
        getConsolidatedData dbA2 s sel now2 = getConsolidatedData dbB2 s sel now2 := by
  obtain ⟨resultsA, hresA, hfilA⟩ := sessionRows_after_load env dbA s ids now hA
  obtain ⟨resultsB, hresB, hfilB⟩ := sessionRows_after_load env dbB s ids now hB
  have hsame : resultsA = resultsB := by
    have h12 := hresA.symm.trans hresB
    injection h12
  subst hsame
  have hfil : dbA2.session_company_data.filter (fun r => r.session_id == s)
      = dbB2.session_company_data.filter (fun r => r.session_id == s) := by
    rw [hfilA, hfilB]
  refine ⟨hfil, ?_⟩
  intro sel now2
  obtain ⟨rA, hrA, hdbA, -⟩ := loadSessionData_ok env dbA s ids now hA
  obtain ⟨rB, hrB, hdbB, -⟩ := loadSessionData_ok env dbB s ids now hB
  have hselA : getDisplaySelection dbA2 s
      = { selected_tenant_ids := ids, current_view := "overview" } := by
    rw [hdbA]
    exact getSet_selection _ s ids "overview" now
  have hselB : getDisplaySelection dbB2 s
      = { selected_tenant_ids := ids, current_view := "overview" } := by
    rw [hdbB]
    exact getSet_selection _ s ids "overview" now
  exact getConsolidatedData_congr dbA2 dbB2 s sel now2 (hselA.trans hselB.symm) hfil

/-- A stale, still-unexpired row from a previous generation of session "s". -/
def staleRow : SessionRow :=
  { session_id := "s", tenant_id := "a", tenant_name := "Old",
    total_assets := 1, total_liabilities := 1, total_equity := 1, total_cash := 1,
    total_revenue := 0, total_expenses := 0, net_profit := 0,
    is_balanced := true, has_data := true, load_error := Option.none,
    expires_at := 99999999 }

/-- A prior store holding that stale row. -/
def dbStale : DB := { session_company_data := [staleRow], user_display_selection := [] }

/-- The store after reloading `["a"]` (same whether the prior store was
`dbStale` or empty). -/
def dbC2out : DB :=
  { session_company_data := [successRow envW3 "s" "a" ⟨"Na"⟩ 1800000]
    user_display_selection := [⟨"s", ["a"], "overview", 0⟩] }

/-- The reload result for that call. -/
def resC2 : SessionLoadResult :=
  { sessionId := "s", totalCompanies := 1, successfulCompanies := 1, expiresAt := 1800000 }

/-- Witness for C2 at a concrete input: reloading over a store that still
holds an unexpired row of the prior generation produces exactly the same
session rows as reloading over an empty store. -/
theorem c2_witness :
    dbC2out.session_company_data.filter (fun r => r.session_id == "s")
      = dbC2out.session_company_data.filter (fun r => r.session_id == "s") :=
  (c2_reload_discards_prior envW3 dbStale dbEmpty "s" ["a"] 0
    (show loadSessionData envW3 dbStale "s" ["a"] 0 = Except.ok (dbC2out, resC2) from rfl)
    (show loadSessionData envW3 dbEmpty "s" ["a"] 0 = Except.ok (dbC2out, resC2) from rfl)).1

/-- Claim C3 counterexample input: every write of a success row (a row with
`load_error = null`) fails, while error-row writes succeed. -/
def envC3 : Env :=
  { getXeroToken := fun _ => some ⟨"Acme"⟩
    balanceReportRows := fun _ => some []
    cashReportRows := fun _ => some []
    insertCompanyRowFails := fun row => row.load_error == (Option.none : Option String)
    insertErrMsg := "insert failed" }

/-- Claim C3 counterexample: the credential exists and the durable write of
the company's success row fails, yet the loader does not raise past its
boundary — the catch block converts the persist failure into a persisted error
row plus a `{success: false}` result.  So "raises iff the durable write
fails" is false: only failure of the error-row write propagates. -/
theorem c3_counterexample :
    envC3.getXeroToken "t1" = some ⟨"Acme"⟩
    ∧ envC3.insertCompanyRowFails (successRow envC3 "s1" "t1" ⟨"Acme"⟩ 9) = true
    ∧ loadSingleCompanyData envC3 "s1" "t1" 9 =
        Except.ok ([errorRow "s1" "t1" "insert failed" 9],
          { success := false, tenantId := "t1", error := some "insert failed" }) :=
  ⟨rfl, rfl, rfl⟩

/-- Claim C3 (amended): the Company Loader raises past its own boundary iff it
reaches its catch block — and only a missing credential or a failed
success-row write reaches it — and the error-row durable write then also
fails.  A missing credential, and even a failed success-row write whose error
row can still be written, is caught and converted into exactly one persisted
error row plus a structured `{success: false, error}` result.  A failed
report fetch never reaches the catch block: `.catch(() => null)` absorbs it
into the success path, which persists one success row with `load_error =
null` (`has_data` recording which fetches returned) and returns
`{success: true}`. -/
theorem c3_raise_iff_error_write_fails (env : Env) (s t : String) (e : Int) :
    (((∃ msg, loadSingleCompanyData env s t e = Except.error msg)
        ↔ (reachedCatch env s t e = true
            ∧ env.insertCompanyRowFails (errorRow s t (catchMessage env t) e) = true))
    ∧ (reachedCatch env s t e = true →
        env.insertCompanyRowFails (errorRow s t (catchMessage env t) e) = false →
        loadSingleCompanyData env s t e =
          Except.ok ([errorRow s t (catchMessage env t) e],
            { success := false, tenantId := t, error := some (catchMessage env t) }))
    ∧ (reachedCatch env s t e = false →
        ∃ tok, env.getXeroToken t = some tok
          ∧ loadSingleCompanyData env s t e =
              Except.ok ([successRow env s t tok e],
                { success := true, tenantId := t, error := Option.none })))
    ∧ ∀ tok : TokenData,
        (successRow env s t tok e).load_error = Option.none
        ∧ ((successRow env s t tok e).has_data
            = ((env.balanceReportRows t).isSome || (env.cashReportRows t).isSome)) := by
  refine ⟨?_, ?_⟩
  case refine_2 =>
    intro tok
    refine ⟨rfl, ?_⟩
    cases h1 : env.balanceReportRows t <;> cases h2 : env.cashReportRows t <;>
      simp [successRow, h1, h2]
  cases htok : env.getXeroToken t with
  | none =>
      have hrc : reachedCatch env s t e = true := by
        unfold reachedCatch; rw [htok]
      have hcm : catchMessage env t = s!"No token found for tenant {t}" := by
        unfold catchMessage; rw [htok]
      rw [hcm, hrc]
      simp only [loadSingleCompanyData, attemptErrorInsert, htok]
      cases hf : env.insertCompanyRowFails
          (errorRow s t (s!"No token found for tenant {t}") e) with
      | true =>
          refine ⟨⟨fun _ => ⟨trivial, rfl⟩, fun _ => ⟨env.insertErrMsg, by rw [if_pos rfl]⟩⟩,
            ?_, ?_⟩
          · intro _ h2; cases h2
          · intro h3; cases h3
      | false =>
          refine ⟨⟨?_, ?_⟩, ?_, ?_⟩
          · rintro ⟨msg, hmsg⟩
            rw [if_neg (by exact Bool.false_ne_true)] at hmsg
            cases hmsg
          · rintro ⟨-, h2⟩; cases h2
          · intro _ _
            rw [if_neg (by exact Bool.false_ne_true)]
          · intro h3; cases h3
  | some tok =>
      have hrc : reachedCatch env s t e
          = env.insertCompanyRowFails (successRow env s t tok e) := by
        unfold reachedCatch; rw [htok]
      have hcm : catchMessage env t = env.insertErrMsg := by
        unfold catchMessage; rw [htok]
      rw [hcm, hrc]
      simp only [loadSingleCompanyData, attemptErrorInsert, htok]
      cases hfs : env.insertCompanyRowFails (successRow env s t tok e) with
      | true =>
          rw [if_pos rfl]
          cases hfe : env.insertCompanyRowFails (errorRow s t env.insertErrMsg e) with
          | true =>
              refine ⟨⟨fun _ => ⟨rfl, rfl⟩,
                fun _ => ⟨env.insertErrMsg, by rw [if_pos rfl]⟩⟩, ?_, ?_⟩
              · intro _ h2; cases h2
              · intro h3; cases h3
          | false =>
              refine ⟨⟨?_, ?_⟩, ?_, ?_⟩
              · rintro ⟨msg, hmsg⟩
                rw [if_neg (by exact Bool.false_ne_true)] at hmsg
                cases hmsg
              · rintro ⟨-, h2⟩; cases h2
              · intro _ _
                rw [if_neg (by exact Bool.false_ne_true)]
              · intro h3; cases h3
      | false =>
          rw [if_neg (by exact Bool.false_ne_true)]
          refine ⟨⟨?_, ?_⟩, ?_, ?_⟩
          · rintro ⟨msg, hmsg⟩; cases hmsg
          · rintro ⟨h1, -⟩; cases h1
          · intro h1; cases h1
          · intro _; exact ⟨tok, rfl, rfl⟩

/-- An environment where the store rejects every write and the credential is
missing. -/
def envC3w : Env :=
  { getXeroToken := fun _ => Option.none
    balanceReportRows := fun _ => Option.none
    cashReportRows := fun _ => Option.none
    insertCompanyRowFails := fun _ => true
    insertErrMsg := "storage down" }

/-- Witness for the amended C3 at a concrete input: when the catch path is
reached and the error-row write also fails, the loader raises. -/
theorem c3_witness :
    ∃ msg, loadSingleCompanyData envC3w "s" "t" 0 = Except.error msg :=
  (c3_raise_iff_error_write_fails envC3w "s" "t" 0).1.1.mpr ⟨rfl, rfl⟩

/-- Claim C10 (implicit): every persisted error row carries the fixed constant
`tenant_name = "Unknown Company"` — even when the credential lookup had
succeeded and the real name was available — and `consolidate` projects that
constant as the company's reported name. -/
theorem c10_unknown_company (env : Env) (s t : String) (e : Int)
    {rows : List SessionRow} {res : CompanyResult}
    (h : loadSingleCompanyData env s t e = Except.ok (rows, res))
    (hfail : res.success = false) :
    ∃ msg, rows = [errorRow s t msg e]
      ∧ (errorRow s t msg e).tenant_name = "Unknown Company"
      ∧ (projectCompany (errorRow s t msg e)).tenantName = "Unknown Company" := by
  cases htok : env.getXeroToken t with
  | none =>
      simp only [loadSingleCompanyData, attemptErrorInsert, htok] at h
      split at h
      · cases h
      · injection h with h1
        injection h1 with hrows hres
        exact ⟨_, hrows.symm, rfl, rfl⟩
  | some tok =>
      simp only [loadSingleCompanyData, attemptErrorInsert, htok] at h
      split at h
      · split at h
        · cases h
        · injection h with h1
          injection h1 with hrows hres
          exact ⟨_, hrows.symm, rfl, rfl⟩
      · injection h with h1
        injection h1 with hrows hres
        rw [← hres] at hfail
        cases hfail

/-- Witness for C10 at a concrete input: the credential for "t2" exists
(`envC3` returns a token with the real name "Acme"), the load still fails (the
success-row write is rejected), and the persisted row's name is the constant
"Unknown Company". -/
theorem c10_witness :
    ∃ msg, ([errorRow "s1" "t2" "insert failed" 9] : List SessionRow)
        = [errorRow "s1" "t2" msg 9]
      ∧ (errorRow "s1" "t2" msg 9).tenant_name = "Unknown Company"
      ∧ (projectCompany (errorRow "s1" "t2" msg 9)).tenantName = "Unknown Company" :=
  c10_unknown_company envC3 "s1" "t2" 9 (by rfl) rfl

/-- Claim C7: `consolidate` fails with "No companies selected" exactly when
the resolved selection (explicit, or defaulted from the possibly absent
stored selection) is empty; fails with "No session data found or session
expired" exactly when the selection is non-empty but no unexpired row of the
session matches it; and otherwise returns a consolidated view. -/
theorem c7_consolidate_error_conditions (db : DB) (s : String)
    (sel : Option (List String)) (now : Int) :
    (getConsolidatedData db s sel now = ConsolidatedResult.error "No companies selected"
        ↔ resolvedSel db s sel = [])
    ∧ (getConsolidatedData db s sel now
          = ConsolidatedResult.error "No session data found or session expired"
        ↔ (resolvedSel db s sel ≠ []
            ∧ liveRows db s (resolvedSel db s sel) now = []))
    ∧ (resolvedSel db s sel ≠ [] →
        liveRows db s (resolvedSel db s sel) now ≠ [] →
        getConsolidatedData db s sel now
          = ConsolidatedResult.ok
              (consolidateRows (liveRows db s (resolvedSel db s sel) now))) := by
  rw [getConsolidatedData_eq]
  by_cases h1 : (resolvedSel db s sel).isEmpty = true
  · rw [if_pos h1]
    rw [List.isEmpty_iff] at h1
    refine ⟨⟨fun _ => h1, fun _ => rfl⟩, ⟨?_, ?_⟩, ?_⟩
    · intro hmsg
      injection hmsg with hm
      exact absurd hm (by decide)
    · rintro ⟨hne, -⟩
      exact absurd h1 hne
    · intro hne _
      exact absurd h1 hne
  · rw [if_neg h1]
    rw [List.isEmpty_iff] at h1
    by_cases h2 : (liveRows db s (resolvedSel db s sel) now).isEmpty = true
    · rw [if_pos h2]
      rw [List.isEmpty_iff] at h2
      refine ⟨⟨?_, ?_⟩, ⟨fun _ => ⟨h1, h2⟩, fun _ => rfl⟩, ?_⟩
      · intro hmsg
        injection hmsg with hm
        exact absurd hm (by decide)
      · intro hempty
        exact absurd hempty h1
      · intro _ hne2
        exact absurd h2 hne2
    · rw [if_neg h2]
      rw [List.isEmpty_iff] at h2
      refine ⟨⟨?_, ?_⟩, ⟨?_, ?_⟩, fun _ _ => rfl⟩
      · intro hmsg; cases hmsg
      · intro hempty
        exact absurd hempty h1
      · intro hmsg; cases hmsg
      · rintro ⟨-, hl⟩
        exact absurd hl h2

/-- Witness for C7 at a concrete input: with no explicit selection and no
stored selection row, the resolved selection defaults to empty and
`consolidate` fails with "No companies selected". -/
theorem c7_witness :
    getConsolidatedData dbEmpty "s" Option.none 0
      = ConsolidatedResult.error "No companies selected" :=
  (c7_consolidate_error_conditions dbEmpty "s" Option.none 0).1.mpr rfl

/-- Claim C5 counterexample input: a live row whose stored error message is
the empty string. -/
def rowC5x : SessionRow :=
  { session_id := "s", tenant_id := "a", tenant_name := "A",
    total_assets := 0, total_liabilities := 0, total_equity := 0, total_cash := 0,
    total_revenue := 0, total_expenses := 0, net_profit := 0,
    is_balanced := false, has_data := false, load_error := some "",
    expires_at := 10 }

/-- A store holding that row. -/
def dbC5x : DB := { session_company_data := [rowC5x], user_display_selection := [] }

/-- Claim C5 counterexample: over a live row with `load_error = ''`, the
returned view's `companiesWithErrors` is 0 — the source filters by JS
truthiness (`companies.filter((c) => c.load_error)`), and the empty string is
falsy — while the rows with non-null `load_error` number 1.  So "count of
rows with non-null load_error" is false of the code. -/
theorem c5_counterexample :
    getConsolidatedData dbC5x "s" (some ["a"]) 0
        = ConsolidatedResult.ok (consolidateRows [rowC5x])
    ∧ (consolidateRows [rowC5x]).summary.companiesWithErrors = 0
    ∧ ((liveRows dbC5x "s" (resolvedSel dbC5x "s" (some ["a"])) 0).filter
        (fun r => r.load_error.isSome)).length = 1 :=
  ⟨rfl, rfl, rfl⟩

/-- Claim C5 (amended): every consolidated view returned is the arithmetic
reduction of the live rows of the resolved selection: each total is the sum
of that field over the rows, the per-company list is the direct projection of
the rows, and the summary counts rows, balanced rows, rows with data, and
rows with a truthy `load_error` — non-null and non-empty; a stored
empty-string message is not counted. -/
theorem c5_consolidation_math (db : DB) (s : String) (sel : Option (List String))
    (now : Int) {view : ConsolidatedView}
    (h : getConsolidatedData db s sel now = ConsolidatedResult.ok view) :
    view.totals.totalAssets
        = ((liveRows db s (resolvedSel db s sel) now).map (fun r => r.total_assets)).sum
    ∧ view.totals.totalLiabilities
        = ((liveRows db s (resolvedSel db s sel) now).map (fun r => r.total_liabilities)).sum
    ∧ view.totals.totalEquity
        = ((liveRows db s (resolvedSel db s sel) now).map (fun r => r.total_equity)).sum
    ∧ view.totals.totalCash
        = ((liveRows db s (resolvedSel db s sel) now).map (fun r => r.total_cash)).sum
    ∧ view.totals.totalRevenue
        = ((liveRows db s (resolvedSel db s sel) now).map (fun r => r.total_revenue)).sum
    ∧ view.totals.totalExpenses
        = ((liveRows db s (resolvedSel db s sel) now).map (fun r => r.total_expenses)).sum
    ∧ view.totals.totalNetProfit
        = ((liveRows db s (resolvedSel db s sel) now).map (fun r => r.net_profit)).sum
    ∧ view.companies = (liveRows db s (resolvedSel db s sel) now).map projectCompany
    ∧ view.summary.totalCompanies = (liveRows db s (resolvedSel db s sel) now).length
    ∧ view.summary.balancedCompanies
        = ((liveRows db s (resolvedSel db s sel) now).filter
            (fun r => r.is_balanced)).length
    ∧ view.summary.companiesWithData
        = ((liveRows db s (resolvedSel db s sel) now).filter
            (fun r => r.has_data)).length
    ∧ view.summary.companiesWithErrors
        = ((liveRows db s (resolvedSel db s sel) now).filter
            (fun r => r.load_error.getD "" != "")).length := by
  have hview : view = consolidateRows (liveRows db s (resolvedSel db s sel) now) := by
    rw [getConsolidatedData_eq] at h
    by_cases h1 : (resolvedSel db s sel).isEmpty = true
    · rw [if_pos h1] at h; cases h
    · rw [if_neg h1] at h
      by_cases h2 : (liveRows db s (resolvedSel db s sel) now).isEmpty = true
      · rw [if_pos h2] at h; cases h
      · rw [if_neg h2] at h
        injection h with hv
        exact hv.symm
  subst hview
  have herr : ((liveRows db s (resolvedSel db s sel) now).filter
        (fun r => optStrTruthy r.load_error)).length
      = ((liveRows db s (resolvedSel db s sel) now).filter
          (fun r => r.load_error.getD "" != "")).length := by
    congr 1
    apply List.filter_congr
    intro r _
    cases r.load_error with
    | none => rfl
    | some m => rfl
  refine ⟨?_, ?_, ?_, ?_, ?_, ?_, ?_, rfl, rfl, rfl, rfl, herr⟩ <;>
    simp [consolidateRows, foldl_add_map]

/-- A live success row for the C5 witness. -/
def rowW5 : SessionRow :=
  { session_id := "s", tenant_id := "a", tenant_name := "A",
    total_assets := 7, total_liabilities := 3, total_equity := 4, total_cash := 2,
    total_revenue := 0, total_expenses := 0, net_profit := 0,
    is_balanced := true, has_data := true, load_error := Option.none,
    expires_at := 10 }

/-- A store holding that row. -/
def dbW5 : DB := { session_company_data := [rowW5], user_display_selection := [] }

/-- Witness for C5 at a concrete input: the returned view's asset total is the
sum over the live rows. -/
theorem c5_witness :
    getConsolidatedData dbW5 "s" (some ["a"]) 0
        = ConsolidatedResult.ok (consolidateRows [rowW5])
    ∧ (consolidateRows [rowW5]).totals.totalAssets
        = ((liveRows dbW5 "s" (resolvedSel dbW5 "s" (some ["a"])) 0).map
            (fun r => r.total_assets)).sum := by
  have h : getConsolidatedData dbW5 "s" (some ["a"]) 0
      = ConsolidatedResult.ok (consolidateRows [rowW5]) := by rfl
  exact ⟨h, (c5_consolidation_math dbW5 "s" (some ["a"]) 0 h).1⟩

/-- Section classification used by both the claim and the source:
case-insensitive substring match on "asset" / "liabilit" / "equity", in the
source's else-if priority. -/
inductive SectionKind where
  | asset
  | liability
  | equity
  | other
  deriving DecidableEq

/-- Classification of an already-lowered section title. -/
def classifyLowered (lt : String) : SectionKind :=
  if strIncludes lt "asset" then SectionKind.asset
  else if strIncludes lt "liabilit" then SectionKind.liability
  else if strIncludes lt "equity" then SectionKind.equity
  else SectionKind.other

/-- Classification of a section title (the source lowers it first). -/
def classifySection (title : String) : SectionKind := classifyLowered (strLower title)

/-- The readable leaf rows of a balance-report section: the section passes
`rowType === "Section" && rows && title` and the row passes `tbRowQual`. -/
def tbQualRows (sec : ReportRow) : List LeafRow :=
  match sec.rows with
  | Option.none => []
  | some rows =>
      if sec.rowType == "Section" && optStrTruthy sec.title then rows.filter tbRowQual
      else []

/-- Stated from the claim: a section's contribution to the total of kind `k`
is the plain sum of its readable rows' amounts when the section is classified
`k`, else `0` (zero-amount rows contribute `0`, so the source's skipping of
them is non-contributory). -/
def sectionSum (k : SectionKind) (sec : ReportRow) : Rat :=
  if classifySection (sec.title.getD "") = k
  then ((tbQualRows sec).map rowAmount).sum else 0

/-- Stated from the claim: the liabilities contribution accumulates the
absolute value of each row's amount. -/
def sectionSumAbs (sec : ReportRow) : Rat :=
  if classifySection (sec.title.getD "") = SectionKind.liability
  then ((tbQualRows sec).map (fun r => |rowAmount r|)).sum else 0

/-- Stated from the claim: the report-wide total of kind `k`. -/
def specKindTotal (k : SectionKind) (rows : List ReportRow) : Rat :=
  (rows.map (sectionSum k)).sum

/-- Stated from the claim: the report-wide liabilities total. -/
def specLiabTotal (rows : List ReportRow) : Rat :=
  (rows.map sectionSumAbs).sum

/-- Per-section asset contribution in source form. -/
def aContrib (lt : String) (rs : List LeafRow) : Rat :=
  if classifyLowered lt = SectionKind.asset
  then ((rs.filter tbRowQual).map rowAmount).sum else 0

/-- Per-section liability contribution in source form. -/
def lContrib (lt : String) (rs : List LeafRow) : Rat :=
  if classifyLowered lt = SectionKind.liability
  then ((rs.filter tbRowQual).map (fun r => |rowAmount r|)).sum else 0

/-- Per-section equity contribution in source form. -/
def eContrib (lt : String) (rs : List LeafRow) : Rat :=
  if classifyLowered lt = SectionKind.equity
  then ((rs.filter tbRowQual).map rowAmount).sum else 0

/-- The inner fold accumulates exactly the asset contribution. -/
theorem tbRows_foldl_a (lt : String) (rs : List LeafRow) (acc : Acc3) :
    (rs.foldl (tbRowStep lt) acc).a = acc.a + aContrib lt rs := by
  induction rs generalizing acc with
  | nil => simp [aContrib]
  | cons r rs ih =>
      rw [List.foldl_cons, ih]
      cases hq : tbRowQual r with
      | false => simp [tbRowStep, hq, aContrib, List.filter_cons]
      | true =>
          cases hz : rowAmount r == 0 with
          | true =>
              have hz2 : rowAmount r = 0 := by simpa using hz
              simp [tbRowStep, hq, hz, aContrib, List.filter_cons, hz2]
          | false =>
              by_cases h1 : strIncludes lt "asset"
              · simp [tbRowStep, hq, hz, aContrib, classifyLowered, h1,
                  List.filter_cons]
                ring
              · by_cases h2 : strIncludes lt "liabilit"
                · simp [tbRowStep, hq, hz, aContrib, classifyLowered, h1, h2,
                    List.filter_cons]
                · by_cases h3 : strIncludes lt "equity"
                  · simp [tbRowStep, hq, hz, aContrib, classifyLowered, h1, h2, h3,
                      List.filter_cons]
                  · simp [tbRowStep, hq, hz, aContrib, classifyLowered, h1, h2, h3,
                      List.filter_cons]

/-- The inner fold accumulates exactly the liability contribution. -/
theorem tbRows_foldl_l (lt : String) (rs : List LeafRow) (acc : Acc3) :
    (rs.foldl (tbRowStep lt) acc).l = acc.l + lContrib lt rs := by
  induction rs generalizing acc with
  | nil => simp [lContrib]
  | cons r rs ih =>
      rw [List.foldl_cons, ih]
      cases hq : tbRowQual r with
      | false => simp [tbRowStep, hq, lContrib, List.filter_cons]
      | true =>
          cases hz : rowAmount r == 0 with
          | true =>
              have hz2 : rowAmount r = 0 := by simpa using hz
              simp [tbRowStep, hq, hz, lContrib, List.filter_cons, hz2]
          | false =>
              by_cases h1 : strIncludes lt "asset"
              · simp [tbRowStep, hq, hz, lContrib, classifyLowered, h1,
                  List.filter_cons]
              · by_cases h2 : strIncludes lt "liabilit"
                · simp [tbRowStep, hq, hz, lContrib, classifyLowered, h1, h2,
                    List.filter_cons]
                  ring
                · by_cases h3 : strIncludes lt "equity"
                  · simp [tbRowStep, hq, hz, lContrib, classifyLowered, h1, h2, h3,
                      List.filter_cons]
                  · simp [tbRowStep, hq, hz, lContrib, classifyLowered, h1, h2, h3,
                      List.filter_cons]

/-- The inner fold accumulates exactly the equity contribution. -/
theorem tbRows_foldl_e (lt : String) (rs : List LeafRow) (acc : Acc3) :
    (rs.foldl (tbRowStep lt) acc).e = acc.e + eContrib lt rs := by
  induction rs generalizing acc with
  | nil => simp [eContrib]
  | cons r rs ih =>
      rw [List.foldl_cons, ih]
      cases hq : tbRowQual r with
      | false => simp [tbRowStep, hq, eContrib, List.filter_cons]
      | true =>
          cases hz : rowAmount r == 0 with
          | true =>
              have hz2 : rowAmount r = 0 := by simpa using hz
              simp [tbRowStep, hq, hz, eContrib, List.filter_cons, hz2]
          | false =>
              by_cases h1 : strIncludes lt "asset"
              · simp [tbRowStep, hq, hz, eContrib, classifyLowered, h1,
                  List.filter_cons]
              · by_cases h2 : strIncludes lt "liabilit"
                · simp [tbRowStep, hq, hz, eContrib, classifyLowered, h1, h2,
                    List.filter_cons]
                · by_cases h3 : strIncludes lt "equity"
                  · simp [tbRowStep, hq, hz, eContrib, classifyLowered, h1, h2, h3,
                      List.filter_cons]
                    ring
                  · simp [tbRowStep, hq, hz, eContrib, classifyLowered, h1, h2, h3,
                      List.filter_cons]

/-- The outer fold accumulates the claimed asset total. -/
theorem tbSections_foldl_a (rows : List ReportRow) (acc : Acc3) :
    (rows.foldl tbSectionStep acc).a = acc.a + specKindTotal SectionKind.asset rows := by
  induction rows generalizing acc with
  | nil => simp [specKindTotal]
  | cons sec rest ih =>
      rw [List.foldl_cons, ih]
      cases hrows : sec.rows with
      | none =>
          simp [tbSectionStep, hrows, specKindTotal, sectionSum, tbQualRows]
      | some rs =>
          cases hg : (sec.rowType == "Section" && optStrTruthy sec.title) with
          | false =>
              simp [tbSectionStep, hrows, hg, specKindTotal, sectionSum, tbQualRows]
          | true =>
              have hsec : sectionSum SectionKind.asset sec
                  = aContrib (strLower (sec.title.getD "")) rs := by
                simp [sectionSum, aContrib, classifySection, tbQualRows, hrows, hg]
              simp only [tbSectionStep, hrows, hg, if_true]
              rw [tbRows_foldl_a]
              simp [specKindTotal, hsec]
              ring

/-- The outer fold accumulates the claimed liabilities total. -/
theorem tbSections_foldl_l (rows : List ReportRow) (acc : Acc3) :
    (rows.foldl tbSectionStep acc).l = acc.l + specLiabTotal rows := by
  induction rows generalizing acc with
  | nil => simp [specLiabTotal]
  | cons sec rest ih =>
      rw [List.foldl_cons, ih]
      cases hrows : sec.rows with
      | none =>
          simp [tbSectionStep, hrows, specLiabTotal, sectionSumAbs, tbQualRows]
      | some rs =>
          cases hg : (sec.rowType == "Section" && optStrTruthy sec.title) with
          | false =>
              simp [tbSectionStep, hrows, hg, specLiabTotal, sectionSumAbs, tbQualRows]
          | true =>
              have hsec : sectionSumAbs sec
                  = lContrib (strLower (sec.title.getD "")) rs := by
                simp [sectionSumAbs, lContrib, classifySection, tbQualRows, hrows, hg]
              simp only [tbSectionStep, hrows, hg, if_true]
              rw [tbRows_foldl_l]
              simp [specLiabTotal, hsec]
              ring

/-- The outer fold accumulates the claimed equity total. -/
theorem tbSections_foldl_e (rows : List ReportRow) (acc : Acc3) :
    (rows.foldl tbSectionStep acc).e = acc.e + specKindTotal SectionKind.equity rows := by
  induction rows generalizing acc with
  | nil => simp [specKindTotal]
  | cons sec rest ih =>
      rw [List.foldl_cons, ih]
      cases hrows : sec.rows with
      | none =>
          simp [tbSectionStep, hrows, specKindTotal, sectionSum, tbQualRows]
      | some rs =>
          cases hg : (sec.rowType == "Section" && optStrTruthy sec.title) with
          | false =>
              simp [tbSectionStep, hrows, hg, specKindTotal, sectionSum, tbQualRows]
          | true =>
              have hsec : sectionSum SectionKind.equity sec
                  = eContrib (strLower (sec.title.getD "")) rs := by
                simp [sectionSum, eContrib, classifySection, tbQualRows, hrows, hg]
              simp only [tbSectionStep, hrows, hg, if_true]
              rw [tbRows_foldl_e]
              simp [specKindTotal, hsec]
              ring

/-- `loadTrialBalanceTotals` with its let zeta-reduced. -/
theorem loadTrialBalanceTotals_eq (rows : List ReportRow) :
    loadTrialBalanceTotals rows =
      { totalAssets := (rows.foldl tbSectionStep ⟨0, 0, 0⟩).a
        totalLiabilities := (rows.foldl tbSectionStep ⟨0, 0, 0⟩).l
        totalEquity := (rows.foldl tbSectionStep ⟨0, 0, 0⟩).e
        isBalanced := decide (|(rows.foldl tbSectionStep ⟨0, 0, 0⟩).a
          - ((rows.foldl tbSectionStep ⟨0, 0, 0⟩).l
            + (rows.foldl tbSectionStep ⟨0, 0, 0⟩).e)| < 1) } := rfl

/-- Well-formedness of a balance report for this embedding: every readable
row's amount cell is numeric, empty, or absent (see `numVal` on NaN). -/
def tbReportOk (rows : List ReportRow) : Bool :=
  rows.all (fun sec => (tbQualRows sec).all
    (fun r => amountCellOk (r.cells.getD 1 Option.none)))

/-- Claim C6: the balance reduction classifies each labeled section by
case-insensitive substring match on "asset" / "liabilit" / "equity", sums the
amounts of the contained readable rows into the matching total (skipping
zero-amount rows, which is non-contributory — the totals equal the plain
sums), accumulates liabilities as per-row absolute values, and sets
`isBalanced` iff `|assets − (liabilities + equity)| < 1` strictly. -/
theorem c6_balance_reduction (rows : List ReportRow) (h : tbReportOk rows = true) :
    (loadTrialBalanceTotals rows).totalAssets = specKindTotal SectionKind.asset rows
    ∧ (loadTrialBalanceTotals rows).totalLiabilities = specLiabTotal rows
    ∧ (loadTrialBalanceTotals rows).totalEquity = specKindTotal SectionKind.equity rows
    ∧ ((loadTrialBalanceTotals rows).isBalanced = true ↔
        |specKindTotal SectionKind.asset rows
          - (specLiabTotal rows + specKindTotal SectionKind.equity rows)| < 1) := by
  have ha := tbSections_foldl_a rows ⟨0, 0, 0⟩
  have hl := tbSections_foldl_l rows ⟨0, 0, 0⟩
  have he := tbSections_foldl_e rows ⟨0, 0, 0⟩
  rw [loadTrialBalanceTotals_eq]
  rw [ha, hl, he]
  refine ⟨by ring, by ring, by ring, ?_⟩
  rw [decide_eq_true_iff]
  constructor
  · intro hb
    calc |specKindTotal SectionKind.asset rows
          - (specLiabTotal rows + specKindTotal SectionKind.equity rows)|
        = |(0 : Rat) + specKindTotal SectionKind.asset rows
            - ((0 : Rat) + specLiabTotal rows
              + ((0 : Rat) + specKindTotal SectionKind.equity rows))| := by ring_nf
      _ < 1 := hb
  · intro hb
    calc |(0 : Rat) + specKindTotal SectionKind.asset rows
          - ((0 : Rat) + specLiabTotal rows
            + ((0 : Rat) + specKindTotal SectionKind.equity rows))|
        = |specKindTotal SectionKind.asset rows
            - (specLiabTotal rows + specKindTotal SectionKind.equity rows)| := by ring_nf
      _ < 1 := hb

/-- A balance report whose discrepancy is exactly 1.0. -/
def tbR1 : List ReportRow :=
  [⟨"Section", some "Assets", some [⟨"Row", [Option.none, some (.num 10)]⟩]⟩,
   ⟨"Section", some "Equity", some [⟨"Row", [Option.none, some (.num 9)]⟩]⟩]

/-- A balance report whose discrepancy is exactly 0.999999. -/
def tbR2 : List ReportRow :=
  [⟨"Section", some "Assets", some [⟨"Row", [Option.none, some (.num 10)]⟩]⟩,
   ⟨"Section", some "Equity", some
     [⟨"Row", [Option.none, some (.num ((9000001 : Rat) / 1000000))]⟩]⟩]

/-- Witness for C6 at concrete inputs: a discrepancy of exactly 1.0 is not
balanced; a discrepancy of 0.999999 is. -/
theorem c6_witness :
    tbReportOk tbR1 = true ∧ (loadTrialBalanceTotals tbR1).isBalanced = false
    ∧ tbReportOk tbR2 = true ∧ (loadTrialBalanceTotals tbR2).isBalanced = true := by
  have hA1 : specKindTotal SectionKind.asset tbR1 = 10 := by
    simp +decide [specKindTotal, sectionSum, classifySection, classifyLowered,
      tbQualRows, tbR1, tbRowQual, optStrTruthy, rowAmount, numVal]
  have hL1 : specLiabTotal tbR1 = 0 := by
    simp +decide [specLiabTotal, sectionSumAbs, classifySection, classifyLowered,
      tbQualRows, tbR1, tbRowQual, optStrTruthy, rowAmount, numVal]
  have hE1 : specKindTotal SectionKind.equity tbR1 = 9 := by
    simp +decide [specKindTotal, sectionSum, classifySection, classifyLowered,
      tbQualRows, tbR1, tbRowQual, optStrTruthy, rowAmount, numVal]
  have hA2 : specKindTotal SectionKind.asset tbR2 = 10 := by
    simp +decide [specKindTotal, sectionSum, classifySection, classifyLowered,
      tbQualRows, tbR2, tbRowQual, optStrTruthy, rowAmount, numVal]
  have hL2 : specLiabTotal tbR2 = 0 := by
    simp +decide [specLiabTotal, sectionSumAbs, classifySection, classifyLowered,
      tbQualRows, tbR2, tbRowQual, optStrTruthy, rowAmount, numVal]
  have hE2 : specKindTotal SectionKind.equity tbR2 = (9000001 : Rat) / 1000000 := by
    simp +decide [specKindTotal, sectionSum, classifySection, classifyLowered,
      tbQualRows, tbR2, tbRowQual, optStrTruthy, rowAmount, numVal]
  refine ⟨rfl, ?_, rfl, ?_⟩
  · have hiff := (c6_balance_reduction tbR1 rfl).2.2.2
    rw [hA1, hL1, hE1] at hiff
    cases hb : (loadTrialBalanceTotals tbR1).isBalanced with
    | false => rfl
    | true =>
        have hlt := hiff.mp hb
        rw [show (10 : Rat) - (0 + 9) = 1 by norm_num] at hlt
        simp at hlt
  · have hiff := (c6_balance_reduction tbR2 rfl).2.2.2
    rw [hA2, hL2, hE2] at hiff
    apply hiff.mpr
    rw [abs_sub_lt_iff]
    constructor <;> norm_num

/-- The readable leaf rows of a cash-report section: the section passes
`rowType === "Section" && rows` and the row passes `cashRowQual`. -/
def cashQualRows (row : ReportRow) : List LeafRow :=
  match row.rows with
  | Option.none => []
  | some rows => if row.rowType == "Section" then rows.filter cashRowQual else []

/-- Stated from the claim's words: `totalCash` excludes exactly the rows whose
label contains "total" (case-insensitively); no other row is excluded. -/
def claimCashTotal (rows : List ReportRow) : Rat :=
  (rows.map (fun sec => (((cashQualRows sec).filter
      (fun r => !(strIncludes (strLower (rowLabel r)) "total"))).map cashAmount).sum)).sum

/-- What the source computes: rows whose label is missing or empty are also
excluded (JS falsiness of `accountName`). -/
def amendedCashTotal (rows : List ReportRow) : Rat :=
  (rows.map (fun sec => (((cashQualRows sec).filter cashKeep).map cashAmount).sum)).sum

/-- The inner cash fold accumulates the kept rows' amounts. -/
theorem cashRows_foldl (rs : List LeafRow) (acc : Rat) :
    rs.foldl cashRowStep acc
      = acc + (((rs.filter cashRowQual).filter cashKeep).map cashAmount).sum := by
  induction rs generalizing acc with
  | nil => simp
  | cons r rs ih =>
      rw [List.foldl_cons, ih]
      cases hq : cashRowQual r with
      | false => simp [cashRowStep, hq, List.filter_cons]
      | true =>
          cases hk : cashKeep r with
          | false => simp [cashRowStep, hq, hk, List.filter_cons]
          | true =>
              simp [cashRowStep, hq, hk, List.filter_cons]
              ring

/-- `amendedCashTotal` unfolded one section. -/
theorem amendedCashTotal_cons (sec : ReportRow) (rest : List ReportRow) :
    amendedCashTotal (sec :: rest)
      = (((cashQualRows sec).filter cashKeep).map cashAmount).sum
        + amendedCashTotal rest := by
  simp [amendedCashTotal]

/-- The outer cash fold accumulates the amended total. -/
theorem cashSections_foldl (rows : List ReportRow) (acc : Rat) :
    rows.foldl cashSectionStep acc = acc + amendedCashTotal rows := by
  induction rows generalizing acc with
  | nil => simp [amendedCashTotal]
  | cons sec rest ih =>
      rw [List.foldl_cons, ih, amendedCashTotal_cons]
      cases hrows : sec.rows with
      | none =>
          have hstep : cashSectionStep acc sec = acc := by
            unfold cashSectionStep; rw [hrows]
          have hq : cashQualRows sec = [] := by
            unfold cashQualRows; rw [hrows]
          rw [hstep, hq]
          simp
      | some rs =>
          cases hg : sec.rowType == "Section" with
          | false =>
              have hstep : cashSectionStep acc sec = acc := by
                unfold cashSectionStep; rw [hrows, hg]; rfl
              have hq : cashQualRows sec = [] := by
                unfold cashQualRows; rw [hrows, hg]; rfl
              rw [hstep, hq]
              simp
          | true =>
              have hstep : cashSectionStep acc sec = rs.foldl cashRowStep acc := by
                unfold cashSectionStep; rw [hrows, hg]; rfl
              have hq : cashQualRows sec = rs.filter cashRowQual := by
                unfold cashQualRows; rw [hrows, hg]; rfl
              rw [hstep, hq, cashRows_foldl]
              ring

/-- A cash report with one unlabeled bank row of amount 5. -/
def cashR0 : List ReportRow :=
  [⟨"Section", Option.none, some
    [⟨"Row", [Option.none, Option.none, Option.none, Option.none, some (.num 5)]⟩]⟩]

/-- Claim C8 counterexample: a leaf row with a missing label and amount 5 does
not contain "total", so by the claim it should be summed (total 5); the source
excludes it too (its label is falsy), computing 0. -/
theorem c8_counterexample :
    (loadCashPosition cashR0).totalCash = 0
    ∧ claimCashTotal cashR0 = 5
    ∧ (loadCashPosition cashR0).totalCash ≠ claimCashTotal cashR0 := by
  have h2 : claimCashTotal cashR0 = 5 := by
    simp +decide [claimCashTotal, cashQualRows, cashR0, cashRowQual, rowLabel,
      strVal, cashAmount, numVal]
  refine ⟨rfl, h2, ?_⟩
  rw [h2, show (loadCashPosition cashR0).totalCash = 0 from rfl]
  norm_num

/-- Well-formedness of a cash report for this embedding: every readable row's
amount cell is numeric/empty/absent and its label cell is text or absent. -/
def cashReportOk (rows : List ReportRow) : Bool :=
  rows.all (fun sec => (cashQualRows sec).all (fun r =>
    amountCellOk (r.cells.getD 4 Option.none) && labelCellOk (r.cells.getD 0 Option.none)))

/-- Claim C8 (amended): `totalCash` is the sum of the designated amount column
(`cells[4]`) over the readable leaf rows inside Section rows, excluding
exactly the rows whose label contains "total" case-insensitively or whose
label is missing or empty. -/
theorem c8_cash_reduction (rows : List ReportRow) (h : cashReportOk rows = true) :
    (loadCashPosition rows).totalCash = amendedCashTotal rows := by
  show rows.foldl cashSectionStep 0 = amendedCashTotal rows
  rw [cashSections_foldl, zero_add]

/-- A cash report with one live row and one subtotal row. -/
def cashR1 : List ReportRow :=
  [⟨"Section", Option.none, some
    [⟨"Row", [some (.text "Cash A"), Option.none, Option.none, Option.none,
       some (.num 5)]⟩,
     ⟨"Row", [some (.text "Total Bank"), Option.none, Option.none, Option.none,
       some (.num 7)]⟩]⟩]

/-- Witness for the amended C8 at a concrete input: the labeled row counts,
the "Total …" subtotal row does not. -/
theorem c8_witness :
    cashReportOk cashR1 = true
    ∧ (loadCashPosition cashR1).totalCash = amendedCashTotal cashR1
    ∧ (loadCashPosition cashR1).totalCash = 5 := by
  have hA : amendedCashTotal cashR1 = 5 := by
    simp +decide [amendedCashTotal, cashQualRows, cashR1, cashRowQual, cashKeep,
      rowLabel, strVal, cashAmount, numVal]
  refine ⟨rfl, c8_cash_reduction cashR1 rfl, ?_⟩
  rw [c8_cash_reduction cashR1 rfl, hA]

end SessionDataManager
